import Mathlib

/-!
Shallow embedding of the kubegpt diagnostic classification and reporting
engine (Go), together with theorems settling the frozen claims about it.

Conventions of the embedding:
* Go strings are Lean `String`s; Go `int` is `Int`.
* Timestamps that the Go code obtains by `time.Parse(time.RFC3339, s)` are
  modelled as `Option Int` (seconds since epoch); `none` is a parse failure.
  The evaluation time (`time.Now` / `time.Since`) is an explicit `now : Int`
  parameter.
* Results of `kubectl` invocations that the classifiers consume are passed
  in as explicit parameters (already-parsed record lists) or as oracle
  functions (for secondary per-resource lookups), so every classifier is a
  pure function of its inputs.
* Go nil slices versus empty non-nil slices are modelled by `GoSlice`,
  a list together with a nil flag.
-/

/-- `listStartsWith s pat` : the char list `s` starts with `pat`. -/
def listStartsWith : List Char → List Char → Bool
  | _, [] => true
  | [], _ :: _ => false
  | a :: s, b :: t => a == b && listStartsWith s t

/-- Substring occurrence on char lists, mirroring Go `strings.Contains`. -/
def listContainsSub : List Char → List Char → Bool
  | [], pat => listStartsWith [] pat
  | s@(_ :: rest), pat => listStartsWith s pat || listContainsSub rest pat

/-- Go `strings.Contains(s, pat)`. -/
def goContains (s pat : String) : Bool :=
  listContainsSub s.data pat.data

/-- A Go slice: `isNil` distinguishes the nil slice from an allocated empty
slice (`[]T{}`); both have length 0. -/
structure GoSlice (α : Type) where
  isNil : Bool
  elems : List α
deriving DecidableEq

/-- `len` of a Go slice. -/
def GoSlice.len {α : Type} (s : GoSlice α) : Nat := s.elems.length

/-- The Go nil slice (`var xs []T`). -/
def goNil {α : Type} : GoSlice α := ⟨true, []⟩

/-- The allocated empty Go slice (`[]T\x7b\x7d`). -/
def goEmpty {α : Type} : GoSlice α := ⟨false, []⟩

/-! ## Pod data model (pkg/k8s: client.go, pods.go, types.go) -/

/-- One entry of `status.containerStatuses` as parsed by the Go structs:
current `state.waiting` / `state.terminated` and `lastState.terminated`
fields are flattened; an absent JSON object yields zero values, exactly as
in Go. -/
structure ContainerStatus where
  name : String
  image : String
  ready : Bool
  restartCount : Int
  stateWaitingReason : String
  stateWaitingMessage : String
  stateTerminatedReason : String
  stateTerminatedMessage : String
  stateTerminatedExitCode : Int
  lastTerminatedReason : String
  lastTerminatedMessage : String
  lastTerminatedExitCode : Int
deriving DecidableEq

/-- One item of `kubectl get pods -o json`, restricted to the fields the Go
structs deserialize. `creationTimestamp` carries the outcome of
`time.Parse(time.RFC3339, ·)`. -/
structure PodRecord where
  name : String
  nspace : String
  phase : String
  message : String
  reason : String
  nodeName : String
  creationTimestamp : Option Int
  containerStatuses : List ContainerStatus
deriving DecidableEq

/-- `ContainerIssue` from pkg/k8s/types.go. -/
structure ContainerIssue where
  name : String
  image : String
  ready : Bool
  status : String
  restarts : Int
  reason : String
  message : String
  exitCode : Int
deriving DecidableEq

/-- An event item as deserialized by the Go event structs; `lastTimestamp`
carries the outcome of `time.Parse(time.RFC3339, ·)` (`none` = malformed). -/
structure EventRec where
  typ : String
  reason : String
  message : String
  count : Int
  lastTimestamp : Option Int
  involvedKind : String
  involvedName : String
  involvedNamespace : String
deriving DecidableEq

/-- `PodIssue` from pkg/k8s/types.go (`Age` as seconds, `Logs` as an
association list in container order). -/
structure PodIssue where
  name : String
  nspace : String
  status : String
  message : String
  reason : String
  node : String
  age : Int
  containers : List ContainerIssue
  events : List EventRec
  logs : List (String × String)
  analysis : String
  fix : String
deriving DecidableEq

/-- Zero-valued `PodIssue`, used as the base for field-wise construction
exactly as Go composite literals leave unset fields at zero values. -/
def PodIssue.zero : PodIssue :=
  { name := "", nspace := "", status := "", message := "", reason := "",
    node := "", age := 0, containers := [], events := [], logs := [],
    analysis := "", fix := "" }

/-! ### getRealUnhealthyPods (pkg/k8s/client.go) -/

/-- Unhealthiness test of `getRealUnhealthyPods`: a pod whose phase is
neither Running nor Succeeded is unhealthy; otherwise it is unhealthy when
some container is not ready or has restarted more than 5 times. -/
def realPodIsUnhealthy (p : PodRecord) : Bool :=
  if p.phase != "Running" && p.phase != "Succeeded" then true
  else p.containerStatuses.any (fun c => !c.ready || c.restartCount > 5)

/-- Per-container issue construction of `getRealUnhealthyPods` (only the
`state.waiting` fields are deserialized by this variant). -/
def realContainerIssue (c : ContainerStatus) : ContainerIssue :=
  if !c.ready then
    if c.stateWaitingReason != "" then
      { name := c.name, image := "", ready := c.ready, status := "Not Ready",
        restarts := c.restartCount, reason := c.stateWaitingReason,
        message := c.stateWaitingMessage, exitCode := 0 }
    else
      { name := c.name, image := "", ready := c.ready, status := "Not Ready",
        restarts := c.restartCount, reason := "", message := "", exitCode := 0 }
  else
    { name := c.name, image := "", ready := c.ready, status := "Running",
      restarts := c.restartCount, reason := "", message := "", exitCode := 0 }

/-- Issue produced by `getRealUnhealthyPods` for one pod record, `none`
when the pod is not flagged. -/
def realPodIssue (p : PodRecord) : Option PodIssue :=
  if realPodIsUnhealthy p then
    some { PodIssue.zero with
            name := p.name, nspace := p.nspace, status := p.phase,
            containers := p.containerStatuses.map realContainerIssue }
  else none

/-- `getRealUnhealthyPods` over an already-fetched pod listing. -/
def getRealUnhealthyPods (items : List PodRecord) : List PodIssue :=
  items.filterMap realPodIssue

/-! ### GetUnhealthyPodsLegacy (pkg/k8s/pods.go) -/

/-- Skip test of `GetUnhealthyPodsLegacy`: a Running pod with every
container ready and restart count at most 5 is skipped, and a Succeeded pod
is skipped unconditionally. -/
def legacyPodSkip (p : PodRecord) : Bool :=
  (p.phase == "Running"
      && p.containerStatuses.all (fun c => c.ready && !(c.restartCount > 5)))
    || p.phase == "Succeeded"

/-- Per-container issue construction of `GetUnhealthyPodsLegacy`. -/
def legacyContainerIssue (c : ContainerStatus) : ContainerIssue :=
  if !c.ready then
    if c.stateWaitingReason != "" then
      { name := c.name, image := c.image, ready := c.ready, status := "Waiting",
        restarts := c.restartCount, reason := c.stateWaitingReason,
        message := c.stateWaitingMessage, exitCode := 0 }
    else if c.stateTerminatedReason != "" then
      { name := c.name, image := c.image, ready := c.ready, status := "Terminated",
        restarts := c.restartCount, reason := c.stateTerminatedReason,
        message := c.stateTerminatedMessage, exitCode := c.stateTerminatedExitCode }
    else
      { name := c.name, image := c.image, ready := c.ready, status := "Not Ready",
        restarts := c.restartCount, reason := "", message := "", exitCode := 0 }
  else
    if c.restartCount > 5 then
      if c.lastTerminatedReason != "" then
        { name := c.name, image := c.image, ready := c.ready, status := "Running",
          restarts := c.restartCount, reason := "HighRestartCount",
          message := "Container has restarted " ++ toString c.restartCount
            ++ " times" ++ ", last exit reason: " ++ c.lastTerminatedReason
            ++ " (code: " ++ toString c.lastTerminatedExitCode ++ ")",
          exitCode := c.lastTerminatedExitCode }
      else
        { name := c.name, image := c.image, ready := c.ready, status := "Running",
          restarts := c.restartCount, reason := "HighRestartCount",
          message := "Container has restarted " ++ toString c.restartCount
            ++ " times",
          exitCode := 0 }
    else
      { name := c.name, image := c.image, ready := c.ready, status := "Running",
        restarts := c.restartCount, reason := "", message := "", exitCode := 0 }

/-- Splitting a char list at every newline, mirroring Go
`strings.Split(s, "\n")`: always returns at least one (possibly empty)
part, parts carry no newline. -/
def splitNL : List Char → List (List Char)
  | [] => [[]]
  | c :: rest =>
    if c = '\n' then [] :: splitNL rest
    else
      match splitNL rest with
      | [] => [[c]]
      | h :: t => (c :: h) :: t

/-- Joining char lists with newlines, mirroring Go
`strings.Join(parts, "\n")`. -/
def joinNL : List (List Char) → List Char
  | [] => []
  | [l] => l
  | l :: rest => l ++ '\n' :: joinNL rest

/-- Go `strings.Split(s, "\n")` on strings. -/
def goSplitNL (s : String) : List String :=
  (splitNL s.data).map String.mk

/-- Go `strings.Join(parts, "\n")` on strings. -/
def goJoinNL (parts : List String) : String :=
  String.mk (joinNL (parts.map String.data))

/-- Log truncation of `getPodLogs` (pkg/k8s/pods.go): beyond 2000
characters and more than 20 lines, keep the first 5 lines, the literal
marker line, and the last 15 lines. (Go's `len` counts bytes; the model
counts characters, which agrees on the ASCII log texts the thresholds are
about.) -/
def truncateLogs (output : String) : String :=
  if output.length > 2000 then
    let lines := goSplitNL output
    if lines.length > 20 then
      goJoinNL
        (lines.take 5 ++ "...[logs truncated]..." :: lines.drop (lines.length - 15))
    else output
  else output

/-- `getPodLogs` given the raw fetch outcome for a container (`none` when
both the current and the previous log fetch fail; the caller ignores the
error and stores the empty string). -/
def getPodLogsModel (fetched : Option String) : String :=
  match fetched with
  | some out => truncateLogs out
  | none => ""

/-- Issue produced by `GetUnhealthyPodsLegacy` for one pod record, `none`
when the pod is skipped. `now` is the evaluation time, `ev` the per-pod
event lookup (`getPodEvents`), `lg` the per-container raw log fetch. -/
def legacyPodIssue (ev : String → List EventRec) (lg : String → Option String)
    (now : Int) (p : PodRecord) : Option PodIssue :=
  if legacyPodSkip p then none
  else
    let containers := p.containerStatuses.map legacyContainerIssue
    some { name := p.name, nspace := p.nspace, status := p.phase,
           message := p.message, reason := p.reason, node := p.nodeName,
           age := (match p.creationTimestamp with
                  | some t => now - t
                  | none => 0),
           containers := containers,
           events := ev p.name,
           logs := containers.filterMap (fun ci =>
             if !ci.ready || ci.restarts > 5 then
               some (ci.name, getPodLogsModel (lg ci.name))
             else none),
           analysis := "", fix := "" }

/-- `GetUnhealthyPodsLegacy` over an already-fetched pod listing. -/
def GetUnhealthyPodsLegacy (ev : String → List EventRec)
    (lg : String → Option String) (now : Int)
    (items : List PodRecord) : List PodIssue :=
  items.filterMap (legacyPodIssue ev lg now)


/-! ## Deployment data model (pkg/k8s/client.go, src/unnamed/part_003) -/

/-- One entry of `status.conditions` of a deployment. -/
structure DeploymentCondition where
  typ : String
  status : String
  reason : String
  message : String
deriving DecidableEq

/-- One item of `kubectl get deployments -o json`, restricted to the fields
the Go structs deserialize. -/
structure DeploymentRecord where
  name : String
  nspace : String
  specReplicas : Int
  strategyType : String
  statusReplicas : Int
  readyReplicas : Int
  updatedReplicas : Int
  availableReplicas : Int
  conditions : List DeploymentCondition
  creationTimestamp : Option Int
deriving DecidableEq

/-- `DeploymentIssue` from pkg/k8s/types.go (`Age` as seconds). -/
structure DeploymentIssue where
  name : String
  nspace : String
  replicas : Int
  readyReplicas : Int
  updatedReplicas : Int
  availableReplicas : Int
  strategy : String
  age : Int
  message : String
  reason : String
  conditions : List DeploymentCondition
  events : List EventRec
  analysis : String
  fix : String
deriving DecidableEq

/-- Unhealthiness test of `getRealMisconfiguredDeployments`:
`isMisconfigured || hasNonTrueCondition` with
`isMisconfigured` set when ready or updated replicas fall short of
`spec.replicas`. There is no scaled-down (`spec.replicas == 0`) exemption
in this variant. -/
def realDeploymentUnhealthy (d : DeploymentRecord) : Bool :=
  (d.readyReplicas < d.specReplicas) || (d.updatedReplicas < d.specReplicas)
    || d.conditions.any (fun c => c.status != "True")

/-- The condition loop of `getRealMisconfiguredDeployments`: walking the
conditions in listed order, each non-"True" condition overwrites
reason/message while the reason accumulated so far is still empty. -/
def firstCondReasonMsg (conds : List DeploymentCondition) : String × String :=
  conds.foldl
    (fun acc c =>
      if c.status != "True" && acc.1 == "" then (c.reason, c.message) else acc)
    ("", "")

/-- Reason/message assignment of `getRealMisconfiguredDeployments`: the
condition loop first; only if it left the reason empty, fall back to
"InsufficientReadyReplicas" (ready < desired) and then "StalledRollout"
(updated < desired), each with its formatted count message. -/
def realDeploymentReasonMessage (d : DeploymentRecord) : String × String :=
  let rm := firstCondReasonMsg d.conditions
  if rm.1 == "" then
    if d.readyReplicas < d.specReplicas then
      ("InsufficientReadyReplicas",
        "Deployment has " ++ toString d.readyReplicas ++ "/"
          ++ toString d.specReplicas ++ " ready replicas")
    else if d.updatedReplicas < d.specReplicas then
      ("StalledRollout",
        "Deployment rollout is stalled with " ++ toString d.updatedReplicas
          ++ "/" ++ toString d.specReplicas ++ " updated replicas")
    else rm
  else rm

/-- Issue produced by `getRealMisconfiguredDeployments` for one deployment
record (`devents` is the per-deployment event lookup; its failure is the
empty list, exactly as the Go code leaves `Events` nil). -/
def realDeploymentIssue (devents : String → List EventRec)
    (d : DeploymentRecord) : Option DeploymentIssue :=
  if realDeploymentUnhealthy d then
    let rm := realDeploymentReasonMessage d
    some { name := d.name, nspace := d.nspace, replicas := d.specReplicas,
           readyReplicas := d.readyReplicas, updatedReplicas := d.updatedReplicas,
           availableReplicas := d.availableReplicas, strategy := d.strategyType,
           age := 0, message := rm.2, reason := rm.1,
           conditions := d.conditions.filter (fun c => c.status != "True"),
           events := devents d.name, analysis := "", fix := "" }
  else none

/-- `getRealMisconfiguredDeployments` over an already-fetched listing. -/
def getRealMisconfiguredDeployments (devents : String → List EventRec)
    (items : List DeploymentRecord) : List DeploymentIssue :=
  items.filterMap (realDeploymentIssue devents)

/-- Skip test of `GetUnhealthyDeployments` (src/unnamed/part_003): a
deployment with `spec.replicas == 0` is skipped first (scaled down), then a
deployment whose ready, updated and available replica counts all equal
`spec.replicas` is skipped as healthy. -/
def legacyDeploymentSkip (d : DeploymentRecord) : Bool :=
  d.specReplicas == 0
    || (d.readyReplicas == d.specReplicas && d.updatedReplicas == d.specReplicas
        && d.availableReplicas == d.specReplicas)

/-- Reason/message assignment of `GetUnhealthyDeployments`: the replica
shortfall reason first, then overridden by the first non-"True" condition
of type "Available". -/
def legacyDeploymentReasonMessage (d : DeploymentRecord) : String × String :=
  let rm :=
    if d.readyReplicas < d.specReplicas then
      ("InsufficientReplicas",
        "Only " ++ toString d.readyReplicas ++ "/" ++ toString d.specReplicas
          ++ " replicas are ready")
    else ("", "")
  match d.conditions.find? (fun c => c.status != "True" && c.typ == "Available") with
  | some c => (c.reason, c.message)
  | none => rm

/-- Issue produced by `GetUnhealthyDeployments` for one deployment record;
`now` is the evaluation time for the `Age` field. -/
def legacyDeploymentIssue (devents : String → List EventRec) (now : Int)
    (d : DeploymentRecord) : Option DeploymentIssue :=
  if legacyDeploymentSkip d then none
  else
    let rm := legacyDeploymentReasonMessage d
    some { name := d.name, nspace := d.nspace, replicas := d.specReplicas,
           readyReplicas := d.readyReplicas, updatedReplicas := d.updatedReplicas,
           availableReplicas := d.availableReplicas, strategy := d.strategyType,
           age := (match d.creationTimestamp with
                   | some t => now - t
                   | none => 0),
           message := rm.2, reason := rm.1,
           conditions := d.conditions,
           events := devents d.name, analysis := "", fix := "" }

/-- `GetUnhealthyDeployments` over an already-fetched listing. -/
def GetUnhealthyDeployments (devents : String → List EventRec) (now : Int)
    (items : List DeploymentRecord) : List DeploymentIssue :=
  items.filterMap (legacyDeploymentIssue devents now)

/-! ## Event correlation (src/unnamed/part_000, pkg/k8s/client.go) -/

/-- Staleness test of `GetFailedEvents` (src/unnamed/part_000): the
`lastTimestamp` parsed successfully and lies more than one hour before the
evaluation time `now`. A malformed timestamp is never stale. -/
def isStaleEvent (now : Int) (e : EventRec) : Bool :=
  match e.lastTimestamp with
  | some t => now - t > 3600
  | none => false

/-- `GetFailedEvents` (src/unnamed/part_000) over an already-fetched event
listing: keep Warning events that are not stale; keep Warning events whose
timestamp failed to parse. -/
def GetFailedEvents (now : Int) (items : List EventRec) : List EventRec :=
  items.filter (fun e => e.typ == "Warning" && !(isStaleEvent now e))

/-- The filter of `getRealFailedEvents` (pkg/k8s/client.go): keep Warning
events, and any event whose reason contains "Error" or "Failed". This
variant applies no recency filter. -/
def getRealFailedEvents (items : List EventRec) : List EventRec :=
  items.filter (fun e =>
    e.typ == "Warning" || goContains e.reason "Error" || goContains e.reason "Failed")

/-! ## Service classification (pkg/k8s/client.go getRealServiceIssues) -/

/-- One item of `kubectl get services -o json`, restricted to the fields
the Go structs deserialize (selector as an association list). -/
structure ServiceRecord where
  name : String
  nspace : String
  typ : String
  selector : List (String × String)
  clusterIP : String
deriving DecidableEq

/-- One entry of an Endpoints object's `subsets` (addresses opaque). -/
structure EndpointsSubset where
  addresses : List String
deriving DecidableEq

/-- An Endpoints object as deserialized by the Go struct. -/
structure Endpoints where
  subsets : List EndpointsSubset
deriving DecidableEq

/-- Outcome of the per-service endpoints lookup
(`kubectl get endpoints <name>` followed by JSON unmarshalling). -/
inductive EndpointsLookup where
  | fetchError (err : String)
  | parseError (err : String)
  | ok (ep : Endpoints)
deriving DecidableEq

/-- The service-issue map built by `getRealServiceIssues` (the `selector`
key is present only in the no-endpoints case). -/
structure ServiceIssueOut where
  name : String
  nspace : String
  typ : String
  issue : String
  message : String
  selector : Option (List (String × String))
deriving DecidableEq

/-- Issue appended when the endpoints lookup itself fails. -/
def serviceFetchErrIssue (s : ServiceRecord) (err : String) : ServiceIssueOut :=
  { name := s.name, nspace := s.nspace, typ := s.typ,
    issue := "Cannot retrieve endpoints",
    message := "Error getting endpoints: " ++ err, selector := none }

/-- Issue appended when the endpoints JSON fails to parse. -/
def serviceParseErrIssue (s : ServiceRecord) (err : String) : ServiceIssueOut :=
  { name := s.name, nspace := s.nspace, typ := s.typ,
    issue := "Invalid endpoint data",
    message := "Error parsing endpoints: " ++ err, selector := none }

/-- Issue appended when the Endpoints object has no addresses;
`podsOutput` is the raw output of the secondary matching-pods lookup, which
is the empty string when that lookup fails (its error is discarded). -/
def serviceNoEndpointsIssue (s : ServiceRecord) (podsOutput : String) :
    ServiceIssueOut :=
  { name := s.name, nspace := s.nspace, typ := s.typ,
    issue := "No endpoints available",
    message :=
      if podsOutput != "" then
        "Service has no endpoint pods. Matching pods status: " ++ podsOutput
      else "Service has no endpoint pods",
    selector := some s.selector }

/-- Per-service classification of `getRealServiceIssues`: skip services
without a selector; on endpoints lookup or parse failure record the
corresponding issue and continue; otherwise flag the service exactly when
no subset has an address, attaching the matching-pods context. -/
def classifyService (ep : String → EndpointsLookup)
    (pods : ServiceRecord → String) (s : ServiceRecord) : Option ServiceIssueOut :=
  if s.selector.length == 0 then none
  else
    match ep s.name with
    | .fetchError err => some (serviceFetchErrIssue s err)
    | .parseError err => some (serviceParseErrIssue s err)
    | .ok eps =>
      let hasEndpoints := eps.subsets.any (fun sub => sub.addresses.length > 0)
      if !hasEndpoints then some (serviceNoEndpointsIssue s (pods s))
      else none

/-- `getRealServiceIssues` over an already-fetched service listing. -/
def getRealServiceIssues (ep : String → EndpointsLookup)
    (pods : ServiceRecord → String) (items : List ServiceRecord) :
    List ServiceIssueOut :=
  items.filterMap (classifyService ep pods)

/-! ## Listing wrappers (pkg/k8s/client.go exported methods) -/

/-- `GetUnhealthyPods(ctx)`: fail when the namespace does not exist,
wrap the inner error, and replace an empty successful result by the
allocated empty slice. -/
def GetUnhealthyPods (ns : String) (nsExists : Bool)
    (inner : Except String (GoSlice PodIssue)) : Except String (GoSlice PodIssue) :=
  if !nsExists then .error ("namespace \"" ++ ns ++ "\" not found")
  else
    match inner with
    | .error e => .error ("failed to get unhealthy pods: " ++ e)
    | .ok pods => if pods.len == 0 then .ok goEmpty else .ok pods

/-- `GetFailedEvents(ctx)` (pkg/k8s/client.go; renamed here to avoid the
clash with the namesake in src/unnamed/part_000): same wrapper shape. -/
def GetFailedEventsCtx (ns : String) (nsExists : Bool)
    (inner : Except String (GoSlice EventRec)) : Except String (GoSlice EventRec) :=
  if !nsExists then .error ("namespace \"" ++ ns ++ "\" not found")
  else
    match inner with
    | .error e => .error ("failed to get events: " ++ e)
    | .ok events => if events.len == 0 then .ok goEmpty else .ok events

/-- `GetMisconfiguredDeployments(ctx)`: same wrapper shape. -/
def GetMisconfiguredDeployments (ns : String) (nsExists : Bool)
    (inner : Except String (GoSlice DeploymentIssue)) :
    Except String (GoSlice DeploymentIssue) :=
  if !nsExists then .error ("namespace \"" ++ ns ++ "\" not found")
  else
    match inner with
    | .error e => .error ("failed to get misconfigured deployments: " ++ e)
    | .ok deployments =>
      if deployments.len == 0 then .ok goEmpty else .ok deployments

/-- `GetServiceIssues(ctx)`: same wrapper shape. -/
def GetServiceIssues (ns : String) (nsExists : Bool)
    (inner : Except String (GoSlice ServiceIssueOut)) :
    Except String (GoSlice ServiceIssueOut) :=
  if !nsExists then .error ("namespace \"" ++ ns ++ "\" not found")
  else
    match inner with
    | .error e => .error ("failed to get service issues: " ++ e)
    | .ok services => if services.len == 0 then .ok goEmpty else .ok services

/-! ## Renderers (src/unnamed/part_001 Slack, src/unnamed/part_005 Markdown) -/

/-- Slack block values (all section blocks in the source carry mrkdwn
text). -/
inductive SlackBlockV where
  | sectionBlock (textType : String) (text : String)
  | dividerBlock
deriving DecidableEq

/-- A mrkdwn Slack section block. -/
def mrk (t : String) : SlackBlockV := .sectionBlock "mrkdwn" t

/-- A Slack attachment. -/
structure SlackAttachmentV where
  color : String
  blocks : List SlackBlockV
deriving DecidableEq

/-- A Slack webhook message. -/
structure SlackMessageV where
  text : String
  blocks : List SlackBlockV
  attachments : List SlackAttachmentV
deriving DecidableEq

/-- The typed service issue consumed by the renderers. -/
structure ServiceIssueR where
  name : String
  typ : String
  endpointCount : Int
  message : String
  reason : String
  analysis : String
  fix : String
deriving DecidableEq

/-- The typed event entry consumed by the markdown renderer
(`lastTimestampRFC1123` models `event.LastTimestamp.Format(time.RFC1123)`). -/
structure EventIssueR where
  name : String
  typ : String
  reason : String
  message : String
  count : Int
  involvedKind : String
  involvedName : String
  lastTimestampRFC1123 : String
  analysis : String
  fix : String
deriving DecidableEq

/-- `DiagnosticResults` consumed by the renderers
(`timestampRFC1123` models `Timestamp.Format(time.RFC1123)`). -/
structure DiagnosticResults where
  nspace : String
  timestampRFC1123 : String
  unhealthyPods : List PodIssue
  failedEvents : List EventIssueR
  misconfiguredDeployments : List DeploymentIssue
  serviceIssues : List ServiceIssueR
deriving DecidableEq

/-- An enumerating loop with an item cap: after the `cap`-th item it emits
the single `moreItem` and stops. This is the shape shared by the capped
loops of `createSlackMessage` (cap 5) and the nested per-namespace loops of
`createSlackClusterReport` (cap 3). -/
def capLoop {α β : Type} (cap : Nat) (moreItem : β) (entry : α → β) :
    List α → Nat → List β
  | [], _ => []
  | x :: rest, i =>
    if cap ≤ i then [moreItem]
    else entry x :: capLoop cap moreItem entry rest (i + 1)

/-- Per-pod section text of `createSlackMessage`. -/
def slackPodText (pod : PodIssue) : String :=
  "*" ++ pod.name ++ "*: " ++ pod.status
    ++ (if pod.reason != "" then " (" ++ pod.reason ++ ")" else "")
    ++ (if pod.containers.length > 0 then
          "\n*Container Issues:*"
            ++ String.join (pod.containers.map (fun container =>
              "\n• " ++ container.name ++ ": " ++ container.status
                ++ (if container.restarts > 0 then
                      " (Restarts: " ++ toString container.restarts ++ ")"
                    else "")
                ++ (if container.reason != "" then " - " ++ container.reason
                    else "")))
        else "")

/-- Per-deployment section text of `createSlackMessage`. -/
def slackDeploymentText (deployment : DeploymentIssue) : String :=
  "*" ++ deployment.name ++ "*: " ++ toString deployment.readyReplicas ++ "/"
    ++ toString deployment.replicas ++ " ready"
    ++ (if deployment.reason != "" then " (" ++ deployment.reason ++ ")" else "")

/-- The capped pod loop of `createSlackMessage` (limit 5, then a single
"... and K more" block where K is the total pod count minus 5). -/
def slackPodLoop (total : Int) (l : List PodIssue) (i : Nat) : List SlackBlockV :=
  capLoop 5 (mrk ("... and " ++ toString (total - 5) ++ " more"))
    (fun pod => mrk (slackPodText pod)) l i

/-- The capped deployment loop of `createSlackMessage` (limit 5). -/
def slackDeploymentLoop (total : Int) (l : List DeploymentIssue) (i : Nat) :
    List SlackBlockV :=
  capLoop 5 (mrk ("... and " ++ toString (total - 5) ++ " more"))
    (fun deployment => mrk (slackDeploymentText deployment)) l i

/-- `createSlackMessage`: header, timestamp, divider and summary blocks,
then a danger attachment with the capped pod list and a warning attachment
with the capped deployment list; failed events and service issues are not
rendered as attachments by this renderer. -/
def createSlackMessage (results : DiagnosticResults) : SlackMessageV :=
  let headerText :=
    "*Kubernetes Diagnostic Results for Namespace: " ++ results.nspace ++ "*"
  let summaryText := "*Summary:*\n"
    ++ "• Unhealthy Pods: " ++ toString results.unhealthyPods.length ++ "\n"
    ++ "• Failed Events: " ++ toString results.failedEvents.length ++ "\n"
    ++ "• Misconfigured Deployments: "
    ++ toString results.misconfiguredDeployments.length ++ "\n"
    ++ "• Service Issues: " ++ toString results.serviceIssues.length
  let blocks := [mrk headerText, mrk ("*Time:* " ++ results.timestampRFC1123),
    SlackBlockV.dividerBlock, mrk summaryText]
  let attachments : List SlackAttachmentV :=
    (if results.unhealthyPods.length > 0 then
      [{ color := "danger",
         blocks := mrk "*Unhealthy Pods*" ::
           slackPodLoop (results.unhealthyPods.length : Int)
             results.unhealthyPods 0 }]
    else [])
    ++ (if results.misconfiguredDeployments.length > 0 then
      [{ color := "warning",
         blocks := mrk "*Misconfigured Deployments*" ::
           slackDeploymentLoop (results.misconfiguredDeployments.length : Int)
             results.misconfiguredDeployments 0 }]
    else [])
  { text := "Kubernetes Diagnostic Results for Namespace: " ++ results.nspace,
    blocks := blocks, attachments := attachments }

/-- One nested pod line of `createSlackClusterReport`. -/
def clusterPodLine (pod : PodIssue) : String :=
  "• " ++ pod.name ++ ": " ++ pod.status
    ++ (if pod.reason != "" then " (" ++ pod.reason ++ ")" else "") ++ "\n"

/-- The nested per-namespace unhealthy-pod loop of
`createSlackClusterReport` (limit 3, then a single "... and K more" line). -/
def clusterPodLines (total : Int) (l : List PodIssue) (i : Nat) : String :=
  String.join (capLoop 3 ("... and " ++ toString (total - 3) ++ " more\n")
    clusterPodLine l i)

/-- Per-container line of the markdown pod section. -/
def mdContainerLine (container : ContainerIssue) : String :=
  "- **" ++ container.name ++ ":** " ++ container.status
    ++ (if container.restarts > 0 then
          " (Restarts: " ++ toString container.restarts ++ ")"
        else "")
    ++ "  \n"
    ++ (if container.reason != "" then
          "  - Reason: " ++ container.reason ++ "  \n" else "")
    ++ (if container.message != "" then
          "  - Message: " ++ container.message ++ "  \n" else "")

/-- Shared analysis block of the markdown renderer. -/
def mdAnalysisBlock (analysis : String) : String :=
  if analysis != "" then
    "\n**Analysis:**\n\n" ++ "```\n" ++ analysis ++ "\n```\n\n"
  else ""

/-- Shared suggested-fix block of the markdown renderer. -/
def mdFixBlock (fix : String) : String :=
  if fix != "" then
    "**Suggested Fix:**\n\n" ++ "```yaml\n" ++ fix ++ "\n```\n\n"
  else ""

/-- The `i`-th pod entry of `GenerateMarkdownReport` (zero-based `i`;
the heading shows `i+1`). Every pod in the list gets an entry: this
renderer applies no item cap. -/
def mdPodEntry (i : Nat) (pod : PodIssue) : String :=
  "### " ++ toString (i + 1) ++ ". Pod: " ++ pod.name ++ "\n\n"
    ++ "**Status:** " ++ pod.status ++ "  \n"
    ++ (if pod.message != "" then "**Message:** " ++ pod.message ++ "  \n" else "")
    ++ (if pod.reason != "" then "**Reason:** " ++ pod.reason ++ "  \n" else "")
    ++ (if pod.containers.length > 0 then
          "\n**Container Issues:**\n\n"
            ++ String.join (pod.containers.map mdContainerLine)
        else "")
    ++ mdAnalysisBlock pod.analysis
    ++ mdFixBlock pod.fix

/-- The `i`-th deployment entry of `GenerateMarkdownReport`. -/
def mdDeploymentEntry (i : Nat) (deployment : DeploymentIssue) : String :=
  "### " ++ toString (i + 1) ++ ". Deployment: " ++ deployment.name ++ "\n\n"
    ++ "**Replicas:** " ++ toString deployment.readyReplicas ++ "/"
    ++ toString deployment.replicas ++ " ready  \n"
    ++ (if deployment.message != "" then
          "**Message:** " ++ deployment.message ++ "  \n" else "")
    ++ (if deployment.reason != "" then
          "**Reason:** " ++ deployment.reason ++ "  \n" else "")
    ++ mdAnalysisBlock deployment.analysis
    ++ mdFixBlock deployment.fix

/-- The `i`-th service entry of `GenerateMarkdownReport`. -/
def mdServiceEntry (i : Nat) (service : ServiceIssueR) : String :=
  "### " ++ toString (i + 1) ++ ". Service: " ++ service.name ++ "\n\n"
    ++ "**Type:** " ++ service.typ ++ "  \n"
    ++ "**Endpoints:** " ++ toString service.endpointCount ++ "  \n"
    ++ (if service.message != "" then
          "**Message:** " ++ service.message ++ "  \n" else "")
    ++ (if service.reason != "" then
          "**Reason:** " ++ service.reason ++ "  \n" else "")
    ++ mdAnalysisBlock service.analysis
    ++ mdFixBlock service.fix

/-- The `i`-th event entry of `GenerateMarkdownReport`. -/
def mdEventEntry (i : Nat) (event : EventIssueR) : String :=
  "### " ++ toString (i + 1) ++ ". Event: " ++ event.name ++ "\n\n"
    ++ "**Type:** " ++ event.typ ++ "  \n"
    ++ "**Reason:** " ++ event.reason ++ "  \n"
    ++ "**Message:** " ++ event.message ++ "  \n"
    ++ "**Count:** " ++ toString event.count ++ "  \n"
    ++ "**Object:** " ++ event.involvedKind ++ "/" ++ event.involvedName ++ "  \n"
    ++ "**Last Seen:** " ++ event.lastTimestampRFC1123 ++ "  \n"
    ++ mdAnalysisBlock event.analysis
    ++ mdFixBlock event.fix

/-- `GenerateMarkdownReport` (src/unnamed/part_005): header, summary, then
the pod, deployment, service and event sections. Each section enumerates
every item of its list — there is no "... and K more" cap in this
renderer. -/
def GenerateMarkdownReport (results : DiagnosticResults) : String :=
  "# Kubernetes Diagnostic Report\n\n"
    ++ "**Namespace:** " ++ results.nspace ++ "  \n"
    ++ "**Time:** " ++ results.timestampRFC1123 ++ "  \n\n"
    ++ "## Summary\n\n"
    ++ "- **Unhealthy Pods:** " ++ toString results.unhealthyPods.length ++ "\n"
    ++ "- **Failed Events:** " ++ toString results.failedEvents.length ++ "\n"
    ++ "- **Misconfigured Deployments:** "
    ++ toString results.misconfiguredDeployments.length ++ "\n"
    ++ "- **Service Issues:** " ++ toString results.serviceIssues.length ++ "\n\n"
    ++ (if results.unhealthyPods.length > 0 then
          "## Unhealthy Pods\n\n"
            ++ String.join (List.mapIdx mdPodEntry results.unhealthyPods)
        else "")
    ++ (if results.misconfiguredDeployments.length > 0 then
          "## Misconfigured Deployments\n\n"
            ++ String.join
              (List.mapIdx mdDeploymentEntry results.misconfiguredDeployments)
        else "")
    ++ (if results.serviceIssues.length > 0 then
          "## Service Issues\n\n"
            ++ String.join (List.mapIdx mdServiceEntry results.serviceIssues)
        else "")
    ++ (if results.failedEvents.length > 0 then
          "## Failed Events\n\n"
            ++ String.join (List.mapIdx mdEventEntry results.failedEvents)
        else "")

/-! ## Concrete records used by witnesses and counterexamples -/

/-- A container status that is not ready, with no state detail. -/
def containerNotReady : ContainerStatus :=
  { name := "main", image := "", ready := false, restartCount := 0,
    stateWaitingReason := "", stateWaitingMessage := "",
    stateTerminatedReason := "", stateTerminatedMessage := "",
    stateTerminatedExitCode := 0, lastTerminatedReason := "",
    lastTerminatedMessage := "", lastTerminatedExitCode := 0 }

/-- A pod that completed successfully; its container is (as usual for a
terminated pod) not ready. -/
def podSucceededBad : PodRecord :=
  { name := "job-pod", nspace := "default", phase := "Succeeded",
    message := "", reason := "", nodeName := "", creationTimestamp := none,
    containerStatuses := [containerNotReady] }

/-- A pending pod with a parseable creation timestamp. -/
def podPendingTimed : PodRecord :=
  { name := "p0", nspace := "default", phase := "Pending", message := "",
    reason := "", nodeName := "", creationTimestamp := some 0,
    containerStatuses := [] }

/-- A deployment condition with status "True". -/
def condTrue : DeploymentCondition :=
  { typ := "Available", status := "True",
    reason := "MinimumReplicasAvailable", message := "ok" }

/-- A non-"True" deployment condition with its own reason. -/
def condFalseReason : DeploymentCondition :=
  { typ := "Progressing", status := "False",
    reason := "SomeCondReason", message := "condition message" }

/-- A non-"True" Available condition. -/
def condFalse : DeploymentCondition :=
  { typ := "Available", status := "False",
    reason := "MinimumReplicasUnavailable",
    message := "Deployment does not have minimum availability." }

/-- A deployment scaled down to 0 replicas whose conditions include a
non-"True" one. -/
def depScaledDown : DeploymentRecord :=
  { name := "d0", nspace := "default", specReplicas := 0,
    strategyType := "RollingUpdate", statusReplicas := 0, readyReplicas := 0,
    updatedReplicas := 0, availableReplicas := 0, conditions := [condFalse],
    creationTimestamp := none }

/-- A deployment with a ready-replica shortfall (2/5) and a non-"True"
condition carrying its own reason. -/
def depCondReason : DeploymentRecord :=
  { name := "d1", nspace := "default", specReplicas := 5,
    strategyType := "RollingUpdate", statusReplicas := 5, readyReplicas := 2,
    updatedReplicas := 5, availableReplicas := 2,
    conditions := [condFalseReason], creationTimestamp := none }

/-- A deployment with a ready-replica shortfall (2/5) and all conditions
"True" (spec scenario B). -/
def depShortfall : DeploymentRecord :=
  { name := "d2", nspace := "default", specReplicas := 5,
    strategyType := "RollingUpdate", statusReplicas := 5, readyReplicas := 2,
    updatedReplicas := 2, availableReplicas := 2, conditions := [condTrue],
    creationTimestamp := none }

/-- A Warning event whose parsed timestamp lies two hours before the
evaluation time 7200. -/
def eventStale : EventRec :=
  { typ := "Warning", reason := "BackOff",
    message := "Back-off restarting failed container", count := 3,
    lastTimestamp := some 0, involvedKind := "Pod", involvedName := "p0",
    involvedNamespace := "default" }

/-- A Warning event whose timestamp failed to parse. -/
def eventMalformed : EventRec :=
  { typ := "Warning", reason := "FailedScheduling", message := "no nodes",
    count := 1, lastTimestamp := none, involvedKind := "Pod",
    involvedName := "p1", involvedNamespace := "default" }

/-- A 100-character log line. -/
def w5line : String := String.mk (List.replicate 100 'a')

/-- A 21-line, 2120-character log text. -/
def w5log : String := goJoinNL (List.replicate 21 w5line)

/-- A minimal pending pod issue with the given name. -/
def podIssueNamed (n : String) : PodIssue :=
  { PodIssue.zero with name := n, status := "Pending" }

/-- Eight unhealthy pod issues. -/
def pods8 : List PodIssue :=
  [podIssueNamed "p1", podIssueNamed "p2", podIssueNamed "p3",
   podIssueNamed "p4", podIssueNamed "p5", podIssueNamed "p6",
   podIssueNamed "p7", podIssueNamed "p8"]

/-- Diagnostic results holding eight unhealthy pods and nothing else. -/
def res8 : DiagnosticResults :=
  { nspace := "d", timestampRFC1123 := "t", unhealthyPods := pods8,
    failedEvents := [], misconfiguredDeployments := [], serviceIssues := [] }

/-- A selector-bearing ClusterIP service. -/
def svcSel : ServiceRecord :=
  { name := "web", nspace := "default", typ := "ClusterIP",
    selector := [("app", "web")], clusterIP := "10.0.0.1" }

/-- Endpoints lookup returning an Endpoints object with no subsets. -/
def epNoAddrs : String → EndpointsLookup := fun _ => .ok { subsets := [] }

/-- Endpoints lookup that fails at the kubectl level. -/
def epFails : String → EndpointsLookup := fun _ => .fetchError "connection refused"

/-- Matching-pods lookup whose failure yields the empty output string. -/
def podsFail : ServiceRecord → String := fun _ => ""

/-- Event oracle returning no events. -/
def evNone : String → List EventRec := fun _ => []

/-- Log oracle whose fetches fail. -/
def lgNone : String → Option String := fun _ => none

/-- A pod issue with its evaluation-time-derived `Age` field zeroed. -/
def PodIssue.withZeroAge (i : PodIssue) : PodIssue := { i with age := 0 }

/-- A deployment issue with its `Age` field zeroed. -/
def DeploymentIssue.withZeroAge (i : DeploymentIssue) : DeploymentIssue :=
  { i with age := 0 }

/-! ## Helper lemmas -/

/-- `splitNL` always returns at least one part. -/
theorem splitNL_ne_nil (s : List Char) : splitNL s ≠ [] := by
  induction s with
  | nil => simp [splitNL]
  | cons c rest ih =>
    simp only [splitNL]
    split
    · simp
    · cases h : splitNL rest <;> simp

/-- Parts produced by `splitNL` carry no newline. -/
theorem mem_splitNL_no_nl :
    ∀ {s l : List Char}, l ∈ splitNL s → '\n' ∉ l := by
  intro s
  induction s with
  | nil =>
    intro l hl
    simp [splitNL] at hl
    simp [hl]
  | cons c rest ih =>
    intro l hl
    simp only [splitNL] at hl
    by_cases hc : c = '\n'
    · rw [if_pos hc] at hl
      rcases List.mem_cons.mp hl with h | h
      · simp [h]
      · exact ih h
    · rw [if_neg hc] at hl
      cases h : splitNL rest with
      | nil => exact absurd h (splitNL_ne_nil rest)
      | cons hd tl =>
        rw [h] at hl
        rcases List.mem_cons.mp hl with h1 | h1
        · subst h1
          intro hmem
          rcases List.mem_cons.mp hmem with h2 | h2
          · exact hc h2.symm
          · exact ih (h ▸ List.mem_cons_self hd tl) h2
        · exact ih (h ▸ List.mem_cons_of_mem hd h1)

/-- A newline-free char list splits into itself. -/
theorem splitNL_no_nl_eq : ∀ {l : List Char}, '\n' ∉ l → splitNL l = [l] := by
  intro l
  induction l with
  | nil => intro _; rfl
  | cons c rest ih =>
    intro h
    have hc : ¬(c = '\n') := fun hcc => h (hcc ▸ List.mem_cons_self c rest)
    have hrest : '\n' ∉ rest := fun hm => h (List.mem_cons_of_mem c hm)
    simp only [splitNL, if_neg hc, ih hrest]

/-- Splitting a newline-free prefix followed by a newline peels off the
prefix as the first part. -/
theorem splitNL_append_nl :
    ∀ (l t : List Char), '\n' ∉ l → splitNL (l ++ '\n' :: t) = l :: splitNL t := by
  intro l
  induction l with
  | nil => intro t _; simp [splitNL]
  | cons c l' ih =>
    intro t h
    have hc : ¬(c = '\n') := fun hcc => h (hcc ▸ List.mem_cons_self c l')
    have hl' : '\n' ∉ l' := fun hm => h (List.mem_cons_of_mem c hm)
    simp only [List.cons_append, splitNL, if_neg hc, List.append_eq, ih t hl']

/-- `splitNL` is a left inverse of `joinNL` on nonempty lists of
newline-free parts. -/
theorem splitNL_joinNL :
    ∀ (ls : List (List Char)), ls ≠ [] → (∀ l ∈ ls, '\n' ∉ l) →
      splitNL (joinNL ls) = ls := by
  intro ls
  induction ls with
  | nil => intro h _; exact absurd rfl h
  | cons l rest ih =>
    intro _ hm
    cases rest with
    | nil =>
      simp only [joinNL]
      exact splitNL_no_nl_eq (hm l (List.mem_cons_self l []))
    | cons l2 ls2 =>
      simp only [joinNL]
      rw [splitNL_append_nl _ _ (hm l (List.mem_cons_self l (l2 :: ls2)))]
      rw [ih (by simp) (fun x hx => hm x (List.mem_cons_of_mem l hx))]

/-- Length of a newline join. -/
theorem joinNL_length :
    ∀ (ls : List (List Char)),
      (joinNL ls).length = (ls.map List.length).sum + (ls.length - 1) := by
  intro ls
  induction ls with
  | nil => simp [joinNL]
  | cons l rest ih =>
    cases rest with
    | nil => simp [joinNL]
    | cons l2 ls2 =>
      simp only [joinNL, List.length_append, List.length_cons, List.map_cons,
        List.sum_cons] at ih ⊢
      omega

/-- `goSplitNL` is a left inverse of `goJoinNL` on nonempty lists of
newline-free strings. -/
theorem goSplitNL_goJoinNL (l : List String) (h1 : l ≠ [])
    (h2 : ∀ x ∈ l, '\n' ∉ x.data) : goSplitNL (goJoinNL l) = l := by
  unfold goSplitNL goJoinNL
  rw [splitNL_joinNL (l.map String.data) (by simpa using h1)
    (by intro x hx
        rcases List.mem_map.mp hx with ⟨y, hy, rfl⟩
        exact h2 y hy)]
  rw [List.map_map]
  have : (String.mk ∘ String.data) = id := by
    funext s; rfl
  rw [this, List.map_id]

/-- Below its cap, `capLoop` enumerates every item. -/
theorem capLoop_full {α β : Type} (cap : Nat) (m : β) (f : α → β) :
    ∀ (l : List α) (i : Nat), l.length ≤ cap - i →
      capLoop cap m f l i = l.map f := by
  intro l
  induction l with
  | nil => intro i _; rfl
  | cons x rest ih =>
    intro i h
    simp only [List.length_cons] at h
    simp only [capLoop, if_neg (by omega : ¬ cap ≤ i)]
    rw [ih (i + 1) (by omega)]
    rfl

/-- Beyond its cap, `capLoop` enumerates exactly the first `cap - i` items
and then the single more-item. -/
theorem capLoop_capped {α β : Type} (cap : Nat) (m : β) (f : α → β) :
    ∀ (l : List α) (i : Nat), i ≤ cap → cap - i < l.length →
      capLoop cap m f l i = (l.take (cap - i)).map f ++ [m] := by
  intro l
  induction l with
  | nil => intro i _ h2; simp at h2
  | cons x rest ih =>
    intro i h1 h2
    by_cases hci : cap ≤ i
    · have hz : cap - i = 0 := by omega
      simp [capLoop, if_pos hci, hz]
    · have h3 : cap - i = (cap - (i + 1)) + 1 := by omega
      simp only [capLoop, if_neg hci, h3, List.take_succ_cons, List.map_cons,
        List.cons_append]
      rw [ih (i + 1) (by omega) (by simp only [List.length_cons] at h2; omega)]

/-- A fold step of the deployment condition loop leaves an accumulator
with nonempty reason untouched. -/
theorem condFold_frozen :
    ∀ (conds : List DeploymentCondition) (acc : String × String), acc.1 ≠ "" →
      conds.foldl
        (fun acc c =>
          if c.status != "True" && acc.1 == "" then (c.reason, c.message) else acc)
        acc = acc := by
  intro conds
  induction conds with
  | nil => intro acc _; rfl
  | cons c rest ih =>
    intro acc h
    rw [List.foldl_cons]
    have hb : (acc.1 == "") = false := by
      exact beq_eq_false_iff_ne.mpr h
    simp only [hb, Bool.and_false, Bool.false_eq_true, if_false]
    exact ih acc h

/-- The condition loop yields the first non-"True" condition's
reason/message when that reason is nonempty. -/
theorem firstCondReasonMsg_find (conds : List DeploymentCondition)
    (c : DeploymentCondition)
    (hf : conds.find? (fun x => x.status != "True") = some c)
    (hr : c.reason ≠ "") :
    firstCondReasonMsg conds = (c.reason, c.message) := by
  induction conds with
  | nil => simp at hf
  | cons d rest ih =>
    by_cases hd : (d.status != "True") = true
    · rw [List.find?_cons, hd] at hf
      have hdc : d = c := by injection hf
      subst hdc
      unfold firstCondReasonMsg
      rw [List.foldl_cons]
      simp only [hd, beq_self_eq_true, Bool.and_true, Bool.true_and, if_true]
      exact condFold_frozen rest (d.reason, d.message) hr
    · have hd' : (d.status != "True") = false := by
        simpa using hd
      rw [List.find?_cons, hd'] at hf
      unfold firstCondReasonMsg at ih ⊢
      rw [List.foldl_cons]
      simp only [hd', Bool.false_and, Bool.false_eq_true, if_false]
      exact ih hf

/-- The condition loop leaves the reason empty when every non-"True"
condition has an empty reason. -/
theorem condFold_fst_empty :
    ∀ (conds : List DeploymentCondition) (acc : String × String), acc.1 = "" →
      (∀ c ∈ conds, c.status ≠ "True" → c.reason = "") →
      (conds.foldl
        (fun acc c =>
          if c.status != "True" && acc.1 == "" then (c.reason, c.message) else acc)
        acc).1 = "" := by
  intro conds
  induction conds with
  | nil => intro acc h _; exact h
  | cons c rest ih =>
    intro acc h hm
    rw [List.foldl_cons]
    by_cases hc : (c.status != "True" && acc.1 == "") = true
    · simp only [hc, if_true]
      have hst : c.status ≠ "True" := by
        have := (Bool.and_eq_true _ _).mp hc
        exact bne_iff_ne.mp this.1
      exact ih (c.reason, c.message)
        (hm c (List.mem_cons_self c rest) hst)
        (fun x hx => hm x (List.mem_cons_of_mem c hx))
    · simp only [Bool.not_eq_true] at hc
      simp only [hc, Bool.false_eq_true, if_false]
      exact ih acc h (fun x hx => hm x (List.mem_cons_of_mem c hx))

/-- `find?` returns an element satisfying the predicate (explicit-predicate
form). -/
theorem find?_pred_true {α : Type} (p : α → Bool) (l : List α) (a : α)
    (h : l.find? p = some a) : p a = true :=
  List.find?_some h

/-- `find?` returns a member of the list (explicit-predicate form). -/
theorem find?_pred_mem {α : Type} (p : α → Bool) (l : List α) (a : α)
    (h : l.find? p = some a) : a ∈ l :=
  List.mem_of_find?_eq_some h

/-! ## Claim theorems -/

/-- C1 (amended): `GetUnhealthyPodsLegacy` produces no Issue for any pod
with phase Succeeded, regardless of container statuses; `getRealUnhealthyPods`
treats a Succeeded pod like a Running one and produces an Issue exactly when
some container is not ready or has restart count above 5. -/
theorem succeeded_pod_classification :
    (∀ (ev : String → List EventRec) (lg : String → Option String) (now : Int)
        (p : PodRecord), p.phase = "Succeeded" →
        legacyPodIssue ev lg now p = none)
    ∧ (∀ p : PodRecord, p.phase = "Succeeded" →
        (realPodIssue p).isSome
          = p.containerStatuses.any (fun c => !c.ready || c.restartCount > 5)) := by
  constructor
  · intro ev lg now p hp
    have hs : legacyPodSkip p = true := by simp [legacyPodSkip, hp]
    simp [legacyPodIssue, hs]
  · intro p hp
    have hu : realPodIsUnhealthy p
        = p.containerStatuses.any (fun c => !c.ready || c.restartCount > 5) := by
      simp [realPodIsUnhealthy, hp]
    cases hany : p.containerStatuses.any (fun c => !c.ready || c.restartCount > 5) <;>
      simp [realPodIssue, hu, hany]

/-- C1 counterexample: a Succeeded pod with a not-ready container is
flagged by `getRealUnhealthyPods`, so the claim that phase Succeeded never
yields an Issue fails on this classifier. -/
theorem succeeded_pod_counterexample :
    podSucceededBad.phase = "Succeeded" ∧ realPodIssue podSucceededBad ≠ none := by
  decide

/-- C1 witness: the legacy classifier at a concrete Succeeded pod. -/
theorem succeeded_pod_classification_witness :
    legacyPodIssue evNone lgNone 0 podSucceededBad = none :=
  succeeded_pod_classification.1 evNone lgNone 0 podSucceededBad rfl

/-- C2 (amended): `GetUnhealthyDeployments` skips a deployment with
`spec.replicas == 0` before any replica-equality check, regardless of its
status fields; `getRealMisconfiguredDeployments` has no scaled-down
exemption, and classifies a `spec.replicas == 0` deployment unhealthy
whenever some condition is not "True". -/
theorem scaled_down_deployment_classification :
    (∀ (devents : String → List EventRec) (now : Int) (d : DeploymentRecord),
        d.specReplicas = 0 → legacyDeploymentIssue devents now d = none)
    ∧ (∀ (devents : String → List EventRec) (d : DeploymentRecord),
        d.specReplicas = 0 → (∃ c ∈ d.conditions, c.status ≠ "True") →
        (realDeploymentIssue devents d).isSome = true) := by
  constructor
  · intro devents now d hd
    have hs : legacyDeploymentSkip d = true := by simp [legacyDeploymentSkip, hd]
    simp [legacyDeploymentIssue, hs]
  · intro devents d _ h
    obtain ⟨c, hc, hcs⟩ := h
    have hany : d.conditions.any (fun x => x.status != "True") = true :=
      List.any_eq_true.mpr ⟨c, hc, bne_iff_ne.mpr hcs⟩
    have hu : realDeploymentUnhealthy d = true := by
      simp [realDeploymentUnhealthy, hany]
    simp [realDeploymentIssue, hu]

/-- C2 counterexample: a deployment scaled to 0 replicas with a non-"True"
condition is classified unhealthy by `getRealMisconfiguredDeployments`. -/
theorem scaled_down_deployment_counterexample :
    depScaledDown.specReplicas = 0 ∧ realDeploymentIssue evNone depScaledDown ≠ none := by
  decide

/-- C2 witness: the part_003 classifier at a concrete scaled-down
deployment. -/
theorem scaled_down_deployment_witness :
    legacyDeploymentIssue evNone 0 depScaledDown = none :=
  scaled_down_deployment_classification.1 evNone 0 depScaledDown rfl

/-- C3 (amended): `getRealMisconfiguredDeployments` assigns `reason` with
the opposite precedence from the claim: the first non-"True" condition
(first nonempty reason among them) wins; only when no non-"True" condition
supplies a reason does it fall back to "InsufficientReadyReplicas"
(ready < desired) and then "StalledRollout" (updated < desired), each with
a message embedding the specific counts. -/
theorem deployment_reason_priority :
    (∀ (devents : String → List EventRec) (d : DeploymentRecord)
        (c : DeploymentCondition),
        d.conditions.find? (fun x => x.status != "True") = some c →
        c.reason ≠ "" →
        (realDeploymentIssue devents d).map (fun i => (i.reason, i.message))
          = some (c.reason, c.message))
    ∧ (∀ (devents : String → List EventRec) (d : DeploymentRecord),
        (∀ c ∈ d.conditions, c.status ≠ "True" → c.reason = "") →
        d.readyReplicas < d.specReplicas →
        (realDeploymentIssue devents d).map (fun i => (i.reason, i.message))
          = some ("InsufficientReadyReplicas",
              "Deployment has " ++ toString d.readyReplicas ++ "/"
                ++ toString d.specReplicas ++ " ready replicas"))
    ∧ (∀ (devents : String → List EventRec) (d : DeploymentRecord),
        (∀ c ∈ d.conditions, c.status ≠ "True" → c.reason = "") →
        ¬(d.readyReplicas < d.specReplicas) →
        d.updatedReplicas < d.specReplicas →
        (realDeploymentIssue devents d).map (fun i => (i.reason, i.message))
          = some ("StalledRollout",
              "Deployment rollout is stalled with " ++ toString d.updatedReplicas
                ++ "/" ++ toString d.specReplicas ++ " updated replicas")) := by
  refine ⟨?_, ?_, ?_⟩
  · intro devents d c hf hr
    have hmem : c ∈ d.conditions :=
      find?_pred_mem (fun x => x.status != "True") d.conditions c hf
    have hc : (c.status != "True") = true :=
      find?_pred_true (fun x => x.status != "True") d.conditions c hf
    have hany : d.conditions.any (fun x => x.status != "True") = true :=
      List.any_eq_true.mpr ⟨c, hmem, hc⟩
    have hu : realDeploymentUnhealthy d = true := by
      simp [realDeploymentUnhealthy, hany]
    have hfm := firstCondReasonMsg_find d.conditions c hf hr
    have hne : (c.reason == "") = false := beq_eq_false_iff_ne.mpr hr
    simp [realDeploymentIssue, hu, realDeploymentReasonMessage, hfm, hne]
  · intro devents d hall hlt
    have h1 : decide (d.readyReplicas < d.specReplicas) = true := decide_eq_true hlt
    have hu : realDeploymentUnhealthy d = true := by
      simp [realDeploymentUnhealthy, h1]
    have hfst : (firstCondReasonMsg d.conditions).1 = "" :=
      condFold_fst_empty d.conditions ("", "") rfl hall
    simp [realDeploymentIssue, hu, realDeploymentReasonMessage, hfst, hlt]
  · intro devents d hall hnlt hup
    have h1 : decide (d.updatedReplicas < d.specReplicas) = true := decide_eq_true hup
    have hu : realDeploymentUnhealthy d = true := by
      simp [realDeploymentUnhealthy, h1]
    have hfst : (firstCondReasonMsg d.conditions).1 = "" :=
      condFold_fst_empty d.conditions ("", "") rfl hall
    simp [realDeploymentIssue, hu, realDeploymentReasonMessage, hfst, hnlt, hup]

/-- C3 counterexample: with a 2/5 ready-replica shortfall and a non-"True"
condition carrying reason "SomeCondReason", the classifier reports the
condition's reason, not "InsufficientReadyReplicas" as the claimed priority
requires. -/
theorem deployment_reason_priority_counterexample :
    depCondReason.readyReplicas < depCondReason.specReplicas ∧
    (realDeploymentIssue evNone depCondReason).map (fun i => i.reason)
      = some "SomeCondReason" := by
  decide

/-- C3 witness: spec scenario B — 2/5 ready, all conditions "True" —
yields reason "InsufficientReadyReplicas" with the 2/5 counts embedded. -/
theorem deployment_reason_priority_witness :
    (realDeploymentIssue evNone depShortfall).map (fun i => (i.reason, i.message))
      = some ("InsufficientReadyReplicas",
          "Deployment has " ++ toString depShortfall.readyReplicas ++ "/"
            ++ toString depShortfall.specReplicas ++ " ready replicas") :=
  deployment_reason_priority.2.1 evNone depShortfall (by decide) (by decide)

/-- Selector-length test of a non-empty selector (helper). -/
theorem selector_len_ne (s : ServiceRecord) (h : s.selector ≠ []) :
    (s.selector.length == 0) = false := by
  have hne : s.selector.length ≠ 0 := by
    simpa [List.length_eq_zero] using h
  simpa using hne

/-- Parts of `goSplitNL` carry no newline (helper). -/
theorem mem_goSplitNL_no_nl (s : String) (x : String) (hx : x ∈ goSplitNL s) :
    '\n' ∉ x.data := by
  simp only [goSplitNL, List.mem_map] at hx
  obtain ⟨l, hl, rfl⟩ := hx
  exact mem_splitNL_no_nl hl

/-- C4 (amended): `GetFailedEvents` (src/unnamed/part_000) keeps exactly
the Warning events that are not stale — an event whose parsed
`lastTimestamp` is more than 1 hour before evaluation time is dropped, and
a Warning event whose timestamp fails to parse is kept (fail open). The
client.go variant `getRealFailedEvents` applies no recency filter: every
Warning event is kept regardless of its timestamp. -/
theorem event_recency_filter :
    (∀ (now : Int) (items : List EventRec) (e : EventRec),
        e ∈ GetFailedEvents now items →
        e.typ = "Warning" ∧ isStaleEvent now e = false)
    ∧ (∀ (now : Int) (items : List EventRec) (e : EventRec),
        e ∈ items → e.typ = "Warning" → e.lastTimestamp = none →
        e ∈ GetFailedEvents now items)
    ∧ (∀ (items : List EventRec) (e : EventRec),
        e ∈ items → e.typ = "Warning" → e ∈ getRealFailedEvents items) := by
  refine ⟨?_, ?_, ?_⟩
  · intro now items e he
    simp only [GetFailedEvents, List.mem_filter] at he
    obtain ⟨-, hcond⟩ := he
    have h2 := (Bool.and_eq_true _ _).mp hcond
    refine ⟨beq_iff_eq.mp h2.1, ?_⟩
    simpa using h2.2
  · intro now items e he htyp hts
    simp only [GetFailedEvents, List.mem_filter]
    refine ⟨he, ?_⟩
    simp [htyp, isStaleEvent, hts]
  · intro items e he htyp
    simp only [getRealFailedEvents, List.mem_filter]
    refine ⟨he, ?_⟩
    simp [htyp]

/-- C4 counterexample: a Warning event two hours old (stale at evaluation
time 7200) is kept, not dropped, by the client.go event correlator. -/
theorem event_recency_counterexample :
    isStaleEvent 7200 eventStale = true ∧
    getRealFailedEvents [eventStale] = [eventStale] := by
  decide

/-- C4 witness: a malformed-timestamp Warning event is kept by the
part_000 correlator. -/
theorem event_recency_filter_witness :
    eventMalformed ∈ GetFailedEvents 7200 [eventMalformed] :=
  event_recency_filter.2.1 7200 [eventMalformed] eventMalformed (by simp) rfl rfl

/-- C5: log truncation keeps exactly the first 5 lines, the literal marker
line, and the last 15 lines (21 lines in total) once the text exceeds 2000
characters and 20 lines, and leaves a log at or below either threshold
unchanged. -/
theorem log_truncation_spec :
    (∀ output : String, 2000 < output.length → 20 < (goSplitNL output).length →
        goSplitNL (truncateLogs output)
          = (goSplitNL output).take 5
              ++ "...[logs truncated]..."
                :: (goSplitNL output).drop ((goSplitNL output).length - 15))
    ∧ (∀ output : String, 2000 < output.length → 20 < (goSplitNL output).length →
        ((goSplitNL output).take 5
            ++ "...[logs truncated]..."
              :: (goSplitNL output).drop ((goSplitNL output).length - 15)).length
          = 21)
    ∧ (∀ output : String,
        output.length ≤ 2000 ∨ (goSplitNL output).length ≤ 20 →
        truncateLogs output = output) := by
  refine ⟨?_, ?_, ?_⟩
  · intro output h1 h2
    have ht : truncateLogs output
        = goJoinNL ((goSplitNL output).take 5
            ++ "...[logs truncated]..."
              :: (goSplitNL output).drop ((goSplitNL output).length - 15)) := by
      simp only [truncateLogs]
      rw [if_pos h1, if_pos h2]
    rw [ht]
    refine goSplitNL_goJoinNL _ (by simp) ?_
    intro x hx
    rcases List.mem_append.mp hx with h | h
    · exact mem_goSplitNL_no_nl output x (List.take_subset 5 _ h)
    · rcases List.mem_cons.mp h with h | h
      · subst h; decide
      · exact mem_goSplitNL_no_nl output x (List.drop_subset _ _ h)
  · intro output h1 h2
    simp only [List.length_append, List.length_take, List.length_cons,
      List.length_drop]
    omega
  · intro output h
    rcases h with h | h
    · simp only [truncateLogs]
      rw [if_neg (by omega)]
    · simp only [truncateLogs]
      by_cases h1 : 2000 < output.length
      · rw [if_pos h1, if_neg (by omega)]
      · rw [if_neg h1]

/-- C5 witness: a 21-line, 2120-character log is truncated to its first 5
lines, the marker, and its last 15 lines. -/
theorem log_truncation_witness :
    2000 < w5log.length ∧ 20 < (goSplitNL w5log).length ∧
    goSplitNL (truncateLogs w5log)
      = (goSplitNL w5log).take 5
          ++ "...[logs truncated]..."
            :: (goSplitNL w5log).drop ((goSplitNL w5log).length - 15) := by
  have hparts : ∀ x ∈ List.replicate 21 w5line, '\n' ∉ x.data := by
    intro x hx
    have hxw := List.eq_of_mem_replicate hx
    subst hxw
    intro hm
    have : '\n' = 'a' :=
      List.eq_of_mem_replicate (show '\n' ∈ List.replicate 100 'a' from hm)
    exact absurd this (by decide)
  have hsplit : goSplitNL w5log = List.replicate 21 w5line :=
    goSplitNL_goJoinNL _ (by simp) hparts
  have hlen : 20 < (goSplitNL w5log).length := by
    rw [hsplit]; simp
  have hstr : 2000 < w5log.length := by
    have hw : w5log.length
        = (joinNL ((List.replicate 21 w5line).map String.data)).length := rfl
    rw [hw, joinNL_length]
    simp [List.map_replicate, List.sum_replicate, smul_eq_mul,
      show w5line.data = List.replicate 100 'a' from rfl]
  exact ⟨hstr, hlen, log_truncation_spec.1 w5log hstr hlen⟩

/-- C6 (amended): only the webhook renderer caps its issue lists — after
the 5th top-level item (`createSlackMessage`) or the 3rd nested
per-namespace item (`createSlackClusterReport`) it emits a single
"... and K more" entry where K is exactly the remaining count, and it
enumerates every item when at or below the cap; the markdown document
renderer applies no cap at all. -/
theorem renderer_item_cap :
    (∀ l : List PodIssue, 5 < l.length →
        slackPodLoop (l.length : Int) l 0
          = (l.take 5).map (fun pod => mrk (slackPodText pod))
              ++ [mrk ("... and " ++ toString ((l.length : Int) - 5) ++ " more")])
    ∧ (∀ l : List PodIssue, l.length ≤ 5 →
        slackPodLoop (l.length : Int) l 0
          = l.map (fun pod => mrk (slackPodText pod)))
    ∧ (∀ l : List DeploymentIssue, 5 < l.length →
        slackDeploymentLoop (l.length : Int) l 0
          = (l.take 5).map (fun deployment => mrk (slackDeploymentText deployment))
              ++ [mrk ("... and " ++ toString ((l.length : Int) - 5) ++ " more")])
    ∧ (∀ l : List PodIssue, 3 < l.length →
        clusterPodLines (l.length : Int) l 0
          = String.join ((l.take 3).map clusterPodLine
              ++ ["... and " ++ toString ((l.length : Int) - 3) ++ " more\n"])) := by
  refine ⟨?_, ?_, ?_, ?_⟩
  · intro l h
    unfold slackPodLoop
    rw [capLoop_capped 5 _ _ l 0 (by omega) (by simpa using h)]
  · intro l h
    unfold slackPodLoop
    rw [capLoop_full 5 _ _ l 0 (by simpa using h)]
  · intro l h
    unfold slackDeploymentLoop
    rw [capLoop_capped 5 _ _ l 0 (by omega) (by simpa using h)]
  · intro l h
    unfold clusterPodLines
    rw [capLoop_capped 3 _ _ l 0 (by omega) (by simpa using h)]

set_option maxRecDepth 4000 in
/-- C6 counterexample: eight unhealthy pods rendered through the markdown
document renderer are all enumerated — the sixth item appears and no
"... and K more" line is emitted, contradicting the claimed cap for the
document channel. -/
theorem renderer_item_cap_counterexample :
    goContains (GenerateMarkdownReport res8) "### 6. Pod: p6" = true ∧
    goContains (GenerateMarkdownReport res8) "... and " = false := by
  decide

/-- C6 witness: eight pods through the webhook renderer's capped loop give
five detailed blocks and "... and 3 more". -/
theorem renderer_item_cap_witness :
    slackPodLoop ((pods8.length : Int)) pods8 0
      = (pods8.take 5).map (fun pod => mrk (slackPodText pod))
          ++ [mrk ("... and " ++ toString ((pods8.length : Int) - 5) ++ " more")] :=
  renderer_item_cap.1 pods8 (by decide)

/-- C7: a service with an empty selector is skipped entirely; a
selector-bearing service whose endpoints lookup succeeds is flagged
exactly when no subset has an address; and when it is flagged and the
secondary matching-pods lookup fails (empty output), the message falls
back to "Service has no endpoint pods" — the classifier itself never
fails. -/
theorem service_classifier_spec :
    (∀ (ep : String → EndpointsLookup) (pods : ServiceRecord → String)
        (s : ServiceRecord), s.selector = [] → classifyService ep pods s = none)
    ∧ (∀ (ep : String → EndpointsLookup) (pods : ServiceRecord → String)
        (s : ServiceRecord) (eps : Endpoints),
        s.selector ≠ [] → ep s.name = .ok eps →
        (classifyService ep pods s).isSome
          = !eps.subsets.any (fun sub => sub.addresses.length > 0))
    ∧ (∀ (ep : String → EndpointsLookup) (pods : ServiceRecord → String)
        (s : ServiceRecord) (eps : Endpoints),
        s.selector ≠ [] → ep s.name = .ok eps →
        eps.subsets.any (fun sub => sub.addresses.length > 0) = false →
        pods s = "" →
        classifyService ep pods s = some (serviceNoEndpointsIssue s (pods s)) ∧
        (serviceNoEndpointsIssue s (pods s)).message
          = "Service has no endpoint pods") := by
  refine ⟨?_, ?_, ?_⟩
  · intro ep pods s hsel
    simp [classifyService, hsel]
  · intro ep pods s eps hsel hep
    simp only [classifyService, selector_len_ne s hsel, Bool.false_eq_true,
      if_false, hep]
    cases hany : eps.subsets.any (fun sub => sub.addresses.length > 0) <;>
      simp [hany]
  · intro ep pods s eps hsel hep hany hpods
    constructor
    · simp only [classifyService, selector_len_ne s hsel, Bool.false_eq_true,
        if_false, hep, hany]
      simp
    · simp [serviceNoEndpointsIssue, hpods]

/-- C7 witness: a concrete selector-bearing service with an empty
Endpoints object and a failing matching-pods lookup. -/
theorem service_classifier_witness :
    classifyService epNoAddrs podsFail svcSel
      = some (serviceNoEndpointsIssue svcSel (podsFail svcSel)) ∧
    (serviceNoEndpointsIssue svcSel (podsFail svcSel)).message
      = "Service has no endpoint pods" :=
  service_classifier_spec.2.2 epNoAddrs podsFail svcSel { subsets := [] }
    (by decide) rfl (by decide) rfl

/-- C8 (amended): classification depends on the evaluation time only
through the `Age` field — with `Age` zeroed, the legacy pod and deployment
classifiers give structurally equal Issues at any two evaluation times. -/
theorem classification_time_dependence :
    (∀ (ev : String → List EventRec) (lg : String → Option String)
        (now now2 : Int) (p : PodRecord),
        (legacyPodIssue ev lg now p).map PodIssue.withZeroAge
          = (legacyPodIssue ev lg now2 p).map PodIssue.withZeroAge)
    ∧ (∀ (devents : String → List EventRec) (now now2 : Int)
        (d : DeploymentRecord),
        (legacyDeploymentIssue devents now d).map DeploymentIssue.withZeroAge
          = (legacyDeploymentIssue devents now2 d).map DeploymentIssue.withZeroAge) := by
  constructor
  · intro ev lg now now2 p
    cases hs : legacyPodSkip p <;>
      simp [legacyPodIssue, hs, PodIssue.withZeroAge]
  · intro devents now now2 d
    cases hs : legacyDeploymentSkip d <;>
      simp [legacyDeploymentIssue, hs, DeploymentIssue.withZeroAge]

/-- C8 counterexample: classifying the same pending pod record at
evaluation times 0 and 3600 yields structurally different Issues (the
`Age` field differs), so classification output does depend on evaluation
time. -/
theorem classification_idempotence_counterexample :
    legacyPodIssue evNone lgNone 0 podPendingTimed
      ≠ legacyPodIssue evNone lgNone 3600 podPendingTimed := by
  decide

/-- C9: when the namespace exists and the inner listing succeeds with no
findings, each exported listing method returns the allocated (non-nil)
empty slice, distinguishable from both the nil slice and the error case. -/
theorem empty_success_non_nil :
    (∀ (ns : String) (s : GoSlice PodIssue), s.elems = [] →
        GetUnhealthyPods ns true (.ok s) = .ok goEmpty)
    ∧ (∀ (ns : String) (s : GoSlice EventRec), s.elems = [] →
        GetFailedEventsCtx ns true (.ok s) = .ok goEmpty)
    ∧ (∀ (ns : String) (s : GoSlice DeploymentIssue), s.elems = [] →
        GetMisconfiguredDeployments ns true (.ok s) = .ok goEmpty)
    ∧ (∀ (ns : String) (s : GoSlice ServiceIssueOut), s.elems = [] →
        GetServiceIssues ns true (.ok s) = .ok goEmpty)
    ∧ (goEmpty : GoSlice PodIssue).isNil = false := by
  refine ⟨?_, ?_, ?_, ?_, rfl⟩
  · intro ns s hs
    simp [GetUnhealthyPods, GoSlice.len, hs]
  · intro ns s hs
    simp [GetFailedEventsCtx, GoSlice.len, hs]
  · intro ns s hs
    simp [GetMisconfiguredDeployments, GoSlice.len, hs]
  · intro ns s hs
    simp [GetServiceIssues, GoSlice.len, hs]

/-- C9 witness: the pods wrapper at the nil inner slice. -/
theorem empty_success_non_nil_witness :
    GetUnhealthyPods "default" true (.ok goNil) = .ok goEmpty :=
  empty_success_non_nil.1 "default" goNil rfl

/-- C10: a failing (or unparseable) endpoints lookup for a
selector-bearing service does not abort classification — the service gets
an issue naming the failure with the lookup error embedded in the message,
and the remaining services are still classified in order. -/
theorem service_lookup_failure_handling :
    (∀ (ep : String → EndpointsLookup) (pods : ServiceRecord → String)
        (s : ServiceRecord) (err : String),
        s.selector ≠ [] → ep s.name = .fetchError err →
        classifyService ep pods s = some (serviceFetchErrIssue s err) ∧
        (serviceFetchErrIssue s err).issue = "Cannot retrieve endpoints" ∧
        (serviceFetchErrIssue s err).message = "Error getting endpoints: " ++ err)
    ∧ (∀ (ep : String → EndpointsLookup) (pods : ServiceRecord → String)
        (s : ServiceRecord) (err : String),
        s.selector ≠ [] → ep s.name = .parseError err →
        classifyService ep pods s = some (serviceParseErrIssue s err) ∧
        (serviceParseErrIssue s err).issue = "Invalid endpoint data" ∧
        (serviceParseErrIssue s err).message = "Error parsing endpoints: " ++ err)
    ∧ (∀ (ep : String → EndpointsLookup) (pods : ServiceRecord → String)
        (pre post : List ServiceRecord) (s : ServiceRecord),
        getRealServiceIssues ep pods (pre ++ s :: post)
          = getRealServiceIssues ep pods pre
              ++ (classifyService ep pods s).toList
              ++ getRealServiceIssues ep pods post) := by
  refine ⟨?_, ?_, ?_⟩
  · intro ep pods s err hsel hep
    refine ⟨?_, rfl, rfl⟩
    simp [classifyService, selector_len_ne s hsel, hep]
  · intro ep pods s err hsel hep
    refine ⟨?_, rfl, rfl⟩
    simp [classifyService, selector_len_ne s hsel, hep]
  · intro ep pods pre post s
    simp only [getRealServiceIssues, List.filterMap_append, List.filterMap_cons]
    cases h : classifyService ep pods s <;> simp [h]

/-- C10 witness: a concrete service whose endpoints lookup fails gets the
"Cannot retrieve endpoints" issue with the error embedded. -/
theorem service_lookup_failure_witness :
    classifyService epFails podsFail svcSel
      = some (serviceFetchErrIssue svcSel "connection refused") ∧
    (serviceFetchErrIssue svcSel "connection refused").issue
      = "Cannot retrieve endpoints" ∧
    (serviceFetchErrIssue svcSel "connection refused").message
      = "Error getting endpoints: " ++ "connection refused" :=
  service_lookup_failure_handling.1 epFails podsFail svcSel "connection refused"
    (by decide) rfl
